import Mathlib

/-
Verification of the synchronous facade over the asynchronous MongoDB driver
engine (`src/sync/client.rs`).  The facade `Client` wraps an asynchronous
engine client and forwards each operation through a blocking executor.  The
engine itself (the asynchronous client, the runtime executor, the resource
registry and the shutdown coordinator) is an external collaborator of the
code under verification; it is modelled here from the specification, while
the facade methods are transcribed from the source.
-/

set_option autoImplicit false

namespace MongoSync

/-- Abstract placeholder for a BSON document; the facade treats documents
opaquely and never inspects them. -/
structure Document where
  id : Nat
deriving DecidableEq

/-- Abstract placeholder for the options of a list-databases call. -/
structure ListDatabasesOptions where
  id : Nat
deriving DecidableEq

/-- Abstract placeholder for one entry of a list-databases reply. -/
structure DatabaseSpecification where
  id : Nat
deriving DecidableEq

/-- Abstract placeholder for a selection-criteria configuration value. -/
structure SelectionCriteria where
  id : Nat
deriving DecidableEq

/-- Abstract placeholder for a read-concern configuration value. -/
structure ReadConcern where
  id : Nat
deriving DecidableEq

/-- Abstract placeholder for a write-concern configuration value. -/
structure WriteConcern where
  id : Nat
deriving DecidableEq

/-- Abstract placeholder for session options. -/
structure SessionOptions where
  id : Nat
deriving DecidableEq

/-- Abstract placeholder for change-stream options. -/
structure ChangeStreamOptions where
  id : Nat
deriving DecidableEq

/-- Abstract placeholder for database options. -/
structure DatabaseOptions where
  id : Nat
deriving DecidableEq

/-- Abstract placeholder for client options. -/
structure ClientOptions where
  id : Nat
deriving DecidableEq

/-- Abstract placeholder for an engine-side database handle. -/
structure AsyncDatabase where
  id : Nat
deriving DecidableEq

/-- Abstract placeholder for an engine-side client session. -/
structure AsyncClientSession where
  id : Nat
deriving DecidableEq

/-- Abstract placeholder for an engine-side change stream. -/
structure AsyncChangeStream where
  id : Nat
deriving DecidableEq

/-- Abstract placeholder for an engine-side session change stream. -/
structure AsyncSessionChangeStream where
  id : Nat
deriving DecidableEq

/-- Errors visible through the facade: either an error surfaced verbatim
from the engine, or the locally synthesized closed-client error. -/
inductive MError where
  | clientClosed : MError
  | engine (code : Nat) : MError
deriving DecidableEq

/-- Result of a fallible operation, mirroring the `Result` type of the
source. -/
inductive MResult (α : Type) where
  | ok (v : α) : MResult α
  | err (e : MError) : MResult α
deriving DecidableEq

/-- Maps a success value, leaving an error unchanged, mirroring
`Result::map`. -/
def MResult.map {α β : Type} (f : α → β) : MResult α → MResult β
  | .ok v => .ok (f v)
  | .err e => .err e

/-- Shutdown phases of the engine.  Modelled from the spec: the shutdown
state machine is `Active → ShuttingDown → Closed`, monotonic, set once. -/
inductive Phase where
  | active : Phase
  | shuttingDown : Phase
  | closed : Phase
deriving DecidableEq

/-- Runtime state of the shared engine.  Modelled from the spec: the engine
carries the shutdown phase, the count of pending cleanup-task records in the
Resource Handle Registry, and whether the cooperative scheduler is still
running. -/
structure EngineState where
  phase : Phase
  pending : Nat
  schedulerRunning : Bool
deriving DecidableEq

/-- Modelled from the spec: the asynchronous engine client is an external
collaborator; each consumed asynchronous operation is an abstract result
oracle.  The `engineId` field stands for the identity of the engine instance
the reference points to. -/
structure AsyncClient where
  engineId : Nat
  selectionCriteriaImpl : Option SelectionCriteria
  readConcernImpl : Option ReadConcern
  writeConcernImpl : Option WriteConcern
  databaseImpl : String → AsyncDatabase
  databaseWithOptionsImpl : String → DatabaseOptions → AsyncDatabase
  defaultDatabaseImpl : Option AsyncDatabase
  listDatabasesImpl : Option Document → Option ListDatabasesOptions → MResult (List DatabaseSpecification)
  listDatabaseNamesImpl : Option Document → Option ListDatabasesOptions → MResult (List String)
  startSessionImpl : Option SessionOptions → MResult AsyncClientSession
  watchImpl : List Document → Option ChangeStreamOptions → MResult AsyncChangeStream
  watchWithSessionImpl : List Document → Option ChangeStreamOptions → AsyncClientSession → MResult AsyncSessionChangeStream × AsyncClientSession

/-- Modelled from the spec: cloning the engine reference (a reference-counted
pointer) yields another handle to the same underlying engine; on the value
model this is the identity. -/
def AsyncClient.clone (a : AsyncClient) : AsyncClient := a

/-- The synchronous facade client: a wrapper holding exactly one field, the
asynchronous engine client, as in the source `struct Client`. -/
structure Client where
  async_client : AsyncClient

/-- Embeds the derived `Clone` of `Client`: clone the single field. -/
def Client.clone (c : Client) : Client := { async_client := c.async_client.clone }

/-- Embeds `impl From<AsyncClient> for Client`: store the engine client
unchanged as the only state of the facade. -/
def Client.fromAsync (async_client : AsyncClient) : Client := { async_client := async_client }

/-- Facade database handle wrapping the engine handle, as used by
`Database::new`. -/
structure Database where
  async_database : AsyncDatabase
deriving DecidableEq

/-- Constructor used by the facade, mirroring `Database::new`. -/
def Database.new (d : AsyncDatabase) : Database := { async_database := d }

/-- Facade session wrapping the engine session; the source accesses its
`async_client_session` field and builds it via `Into::into`. -/
structure ClientSession where
  async_client_session : AsyncClientSession
deriving DecidableEq

/-- Facade change stream wrapping the engine stream, as used by
`ChangeStream::new`. -/
structure ChangeStream where
  async_stream : AsyncChangeStream
deriving DecidableEq

/-- Constructor used by the facade, mirroring `ChangeStream::new`. -/
def ChangeStream.new (s : AsyncChangeStream) : ChangeStream := { async_stream := s }

/-- Facade session change stream wrapping the engine stream, as used by
`SessionChangeStream::new`. -/
structure SessionChangeStream where
  async_stream : AsyncSessionChangeStream
deriving DecidableEq

/-- Constructor used by the facade, mirroring `SessionChangeStream::new`. -/
def SessionChangeStream.new (s : AsyncSessionChangeStream) : SessionChangeStream := { async_stream := s }

/-- A value together with the number of blocking-executor invocations made
while producing it. -/
structure Traced (α : Type) where
  val : α
  blockOnCalls : Nat
deriving DecidableEq

/-- Modelled from the spec: `runtime::block_on`, the Blocking Executor.  It
drives the engine computation to completion and returns its result to the
calling thread; if the scheduler has been stopped post-shutdown, the call
fails immediately with the closed-client error instead of blocking.  The
count records that exactly one executor invocation was made. -/
def runtimeBlockOn {α : Type} (st : EngineState) (fut : MResult α) : Traced (MResult α) :=
  { val := if st.schedulerRunning then fut else .err .clientClosed, blockOnCalls := 1 }

/-- Modelled from the spec: `runtime::block_on` on a future that additionally
updates caller-held state through a mutable borrow.  If the scheduler has
been stopped the future never runs, so the borrowed state keeps its initial
value. -/
def runtimeBlockOnMut {α σ : Type} (st : EngineState) (fut : MResult α × σ) (init : σ) : Traced (MResult α × σ) :=
  { val := if st.schedulerRunning then fut else (.err .clientClosed, init), blockOnCalls := 1 }

/-- Modelled from the spec: free engine constructors consumed by the facade
(`AsyncClient::with_uri_str`, `AsyncClient::with_options`), as abstract
result oracles. -/
structure EngineEnv where
  withUriStrImpl : String → MResult AsyncClient
  withOptionsImpl : ClientOptions → MResult AsyncClient

/-- Embeds `Client::with_uri_str`: drive the engine constructor through the
blocking executor and wrap the resulting engine client. -/
def Client.with_uri_str (env : EngineEnv) (st : EngineState) (uri : String) : Traced (MResult Client) :=
  let t := runtimeBlockOn st (env.withUriStrImpl uri)
  { val := t.val.map Client.mk, blockOnCalls := t.blockOnCalls }

/-- Embeds `Client::with_options`: call the engine constructor directly (no
executor invocation) and wrap the resulting engine client. -/
def Client.with_options (env : EngineEnv) (options : ClientOptions) : Traced (MResult Client) :=
  { val := (env.withOptionsImpl options).map Client.mk, blockOnCalls := 0 }

/-- Embeds `Client::selection_criteria`: read the engine configuration. -/
def Client.selection_criteria (c : Client) : Option SelectionCriteria :=
  c.async_client.selectionCriteriaImpl

/-- Embeds `Client::read_concern`: read the engine configuration. -/
def Client.read_concern (c : Client) : Option ReadConcern :=
  c.async_client.readConcernImpl

/-- Embeds `Client::write_concern`: read the engine configuration. -/
def Client.write_concern (c : Client) : Option WriteConcern :=
  c.async_client.writeConcernImpl

/-- Embeds `Client::database`: wrap the engine database handle directly,
with no executor invocation and no possibility of failure. -/
def Client.database (c : Client) (name : String) : Traced Database :=
  { val := Database.new (c.async_client.databaseImpl name), blockOnCalls := 0 }

/-- Embeds `Client::database_with_options`: wrap the engine database handle
directly, with no executor invocation and no possibility of failure. -/
def Client.database_with_options (c : Client) (name : String) (options : DatabaseOptions) : Traced Database :=
  { val := Database.new (c.async_client.databaseWithOptionsImpl name options), blockOnCalls := 0 }

/-- Embeds `Client::default_database`: map the engine default database
through the wrapper constructor, with no executor invocation. -/
def Client.default_database (c : Client) : Traced (Option Database) :=
  { val := c.async_client.defaultDatabaseImpl.map Database.new, blockOnCalls := 0 }

/-- Embeds `Client::list_databases`: one blocking-executor call around the
engine operation, result returned as is. -/
def Client.list_databases (c : Client) (st : EngineState) (filter : Option Document) (options : Option ListDatabasesOptions) : Traced (MResult (List DatabaseSpecification)) :=
  runtimeBlockOn st (c.async_client.listDatabasesImpl filter options)

/-- Embeds `Client::list_database_names`: one blocking-executor call around
the engine operation, result returned as is. -/
def Client.list_database_names (c : Client) (st : EngineState) (filter : Option Document) (options : Option ListDatabasesOptions) : Traced (MResult (List String)) :=
  runtimeBlockOn st (c.async_client.listDatabaseNamesImpl filter options)

/-- Embeds `Client::start_session`: one blocking-executor call, success
wrapped through the session conversion. -/
def Client.start_session (c : Client) (st : EngineState) (options : Option SessionOptions) : Traced (MResult ClientSession) :=
  let t := runtimeBlockOn st (c.async_client.startSessionImpl options)
  { val := t.val.map ClientSession.mk, blockOnCalls := t.blockOnCalls }

/-- Embeds `Client::watch`: one blocking-executor call, success wrapped by
`ChangeStream::new`. -/
def Client.watch (c : Client) (st : EngineState) (pipeline : List Document) (options : Option ChangeStreamOptions) : Traced (MResult ChangeStream) :=
  let t := runtimeBlockOn st (c.async_client.watchImpl pipeline options)
  { val := t.val.map ChangeStream.new, blockOnCalls := t.blockOnCalls }

/-- Embeds `Client::watch_with_session`: one blocking-executor call around
the engine operation that also mutates the borrowed engine session stored in
the caller-supplied facade session; success wrapped by
`SessionChangeStream::new`. -/
def Client.watch_with_session (c : Client) (st : EngineState) (pipeline : List Document) (options : Option ChangeStreamOptions) (session : ClientSession) : Traced (MResult SessionChangeStream × ClientSession) :=
  let t := runtimeBlockOnMut st
    (c.async_client.watchWithSessionImpl pipeline options session.async_client_session)
    session.async_client_session
  { val := ((t.val).1.map SessionChangeStream.new, { async_client_session := (t.val).2 }),
    blockOnCalls := t.blockOnCalls }

/-- Modelled from the spec: the events of the engine-side shutdown
coordinator and resource handle registry.  `register` records the cleanup
task of a released handle; `complete` removes one pending cleanup record;
`beginShutdown` and `finishShutdown` bracket the wait-policy shutdown;
`shutdownImmediate` is the non-draining shutdown; `shutdownNoop` is either
shutdown variant invoked when the phase has already left `Active`. -/
inductive Event where
  | register : Event
  | complete : Event
  | beginShutdown : Event
  | finishShutdown : Event
  | shutdownImmediate : Event
  | shutdownNoop : Event
deriving DecidableEq

/-- Modelled from the spec: one step of the shutdown coordinator and
registry.  Registrations are allowed only while the phase is `Active`;
`finishShutdown` requires the registry to have drained and stops the
scheduler; `shutdownImmediate` stops the scheduler without draining;
a shutdown call on a phase past `Active` is an idempotent no-op. -/
def stepFn (s : EngineState) : Event → Option EngineState
  | .register =>
      if s.phase = .active then some { s with pending := s.pending + 1 } else none
  | .complete =>
      if s.pending = 0 then none else some { s with pending := s.pending - 1 }
  | .beginShutdown =>
      if s.phase = .active then some { s with phase := .shuttingDown } else none
  | .finishShutdown =>
      if s.phase = .shuttingDown ∧ s.pending = 0 then
        some { phase := .closed, pending := 0, schedulerRunning := false }
      else none
  | .shutdownImmediate =>
      if s.phase = .active then
        some { phase := .closed, pending := s.pending, schedulerRunning := false }
      else none
  | .shutdownNoop =>
      if s.phase = .active then none else some s

/-- Runs a list of events from a state, failing if any step is disabled. -/
def execTrace (s : EngineState) : List Event → Option EngineState
  | [] => some s
  | e :: es => (stepFn s e).bind (fun t => execTrace t es)

/-- Initial engine state: active, empty registry, scheduler running. -/
def initState : EngineState :=
  { phase := .active, pending := 0, schedulerRunning := true }

/-- Counts the occurrences of one event in a trace. -/
def countEvent (t : Event) : List Event → Nat
  | [] => 0
  | e :: es => (if e = t then 1 else 0) + countEvent t es

/-- Numeric rank of a phase along the monotonic shutdown path. -/
def phaseRank : Phase → Nat
  | .active => 0
  | .shuttingDown => 1
  | .closed => 2

/-- Event issued by a `shutdown()` call observed at a given state: the
`Active → ShuttingDown` transition, or the idempotent no-op. -/
def shutdownCallEvent (s : EngineState) : Event :=
  if s.phase = .active then .beginShutdown else .shutdownNoop

/-- Event issued by a `shutdown_immediate()` call observed at a given
state: the immediate close, or the idempotent no-op. -/
def shutdownImmediateCallEvent (s : EngineState) : Event :=
  if s.phase = .active then .shutdownImmediate else .shutdownNoop

/-- One facade operation together with its concrete arguments, covering the
forwarding operations and the handle-creation operations of the facade. -/
inductive FacadeOp where
  | listDatabases (filter : Option Document) (options : Option ListDatabasesOptions) : FacadeOp
  | listDatabaseNames (filter : Option Document) (options : Option ListDatabasesOptions) : FacadeOp
  | startSession (options : Option SessionOptions) : FacadeOp
  | watch (pipeline : List Document) (options : Option ChangeStreamOptions) : FacadeOp
  | watchWithSession (pipeline : List Document) (options : Option ChangeStreamOptions) : FacadeOp
  | database (name : String) : FacadeOp
  | databaseWithOptions (name : String) (options : DatabaseOptions) : FacadeOp
  | defaultDatabase : FacadeOp
deriving DecidableEq

/-- Whether the facade operation drives the blocking executor. -/
def FacadeOp.isBlocking : FacadeOp → Bool
  | .listDatabases _ _ => true
  | .listDatabaseNames _ _ => true
  | .startSession _ => true
  | .watch _ _ => true
  | .watchWithSession _ _ => true
  | .database _ => false
  | .databaseWithOptions _ _ => false
  | .defaultDatabase => false

/-- Observable outcome of a facade operation. -/
inductive FacadeResult where
  | databases (l : List DatabaseSpecification) : FacadeResult
  | names (l : List String) : FacadeResult
  | session (s : ClientSession) : FacadeResult
  | stream (s : ChangeStream) : FacadeResult
  | sessionStream (s : SessionChangeStream) : FacadeResult
  | databaseHandle (d : Database) : FacadeResult
  | optDatabaseHandle (d : Option Database) : FacadeResult
  | err (e : MError) : FacadeResult
deriving DecidableEq

/-- Injects a fallible result into the facade outcome type. -/
def FacadeResult.ofResult {α : Type} (wrap : α → FacadeResult) : MResult α → FacadeResult
  | .ok v => wrap v
  | .err e => .err e

/-- Runs one facade operation by calling the corresponding facade method.
Every method takes the client by shared reference, so the client component
of the post-state is the received client value; only `watch_with_session`
updates the caller-supplied session. -/
def runFacade (st : EngineState) (c : Client) (sess : ClientSession) : FacadeOp → FacadeResult × Client × ClientSession
  | .listDatabases f o =>
      (FacadeResult.ofResult .databases (c.list_databases st f o).val, c, sess)
  | .listDatabaseNames f o =>
      (FacadeResult.ofResult .names (c.list_database_names st f o).val, c, sess)
  | .startSession o =>
      (FacadeResult.ofResult .session (c.start_session st o).val, c, sess)
  | .watch p o =>
      (FacadeResult.ofResult .stream (c.watch st p o).val, c, sess)
  | .watchWithSession p o =>
      let t := c.watch_with_session st p o sess
      (FacadeResult.ofResult .sessionStream (t.val).1, c, (t.val).2)
  | .database name =>
      (FacadeResult.databaseHandle (c.database name).val, c, sess)
  | .databaseWithOptions name o =>
      (FacadeResult.databaseHandle (c.database_with_options name o).val, c, sess)
  | .defaultDatabase =>
      (FacadeResult.optDatabaseHandle (c.default_database).val, c, sess)

/-- Spec-side forwarding schema, following the words of the spec for
comparison with the source facade: build the engine call, drive it through
one `run_to_completion` invocation, and apply only the pure wrapper to a
success value; an engine error passes through unchanged. -/
def specForward {α β : Type} (st : EngineState) (engineResult : MResult α) (wrap : α → β) : Traced (MResult β) :=
  let t := runtimeBlockOn st engineResult
  { val := t.val.map wrap, blockOnCalls := t.blockOnCalls }

/-- Spec-side forwarding schema for the session-borrowing operation: one
`run_to_completion` invocation, success wrapped purely, the borrowed session
replaced by the engine-updated session, or kept when the executor rejected
the call. -/
def specForwardSession {α β : Type} (st : EngineState) (engineResult : MResult α × AsyncClientSession) (session : ClientSession) (wrap : α → β) : Traced (MResult β × ClientSession) :=
  if st.schedulerRunning then
    { val := ((engineResult.1).map wrap, { async_client_session := engineResult.2 }),
      blockOnCalls := 1 }
  else
    { val := (.err .clientClosed, session), blockOnCalls := 1 }

/-- Sample string argument used by concrete witnesses. -/
def dbName : String := "items"

/-- Concrete engine client used by concrete witnesses. -/
def testAsyncClient : AsyncClient :=
  { engineId := 0
    selectionCriteriaImpl := none
    readConcernImpl := none
    writeConcernImpl := none
    databaseImpl := fun _ => { id := 0 }
    databaseWithOptionsImpl := fun _ _ => { id := 1 }
    defaultDatabaseImpl := some { id := 2 }
    listDatabasesImpl := fun _ _ => .ok []
    listDatabaseNamesImpl := fun _ _ => .ok []
    startSessionImpl := fun _ => .ok { id := 3 }
    watchImpl := fun _ _ => .ok { id := 4 }
    watchWithSessionImpl := fun _ _ s => (.ok { id := 5 }, { id := s.id + 1 }) }

/-- Concrete facade client used by concrete witnesses. -/
def testClient : Client := { async_client := testAsyncClient }

/-- Concrete facade session used by concrete witnesses. -/
def testSession : ClientSession := { async_client_session := { id := 9 } }

/-- Engine state after a completed shutdown: closed, drained registry,
scheduler stopped. -/
def closedState : EngineState :=
  { phase := .closed, pending := 0, schedulerRunning := false }

/-- Engine state of a live client: active, scheduler running, one pending
cleanup record outstanding. -/
def runningState : EngineState :=
  { phase := .active, pending := 1, schedulerRunning := true }

/-- Running a concatenated trace is running the two halves in order. -/
theorem execTrace_append (es₁ es₂ : List Event) : ∀ (s : EngineState),
    execTrace s (es₁ ++ es₂) = (execTrace s es₁).bind (fun t => execTrace t es₂) := by
  induction es₁ with
  | nil => intro s; simp [execTrace]
  | cons e es ih =>
    intro s
    simp only [List.cons_append, execTrace]
    cases stepFn s e with
    | none => simp
    | some t => simp [ih t]

/-- Registry invariant: along any executable trace the pending count changes
by the number of registrations minus the number of completions. -/
theorem execTrace_pending (es : List Event) : ∀ (s s' : EngineState),
    execTrace s es = some s' →
    s'.pending + countEvent Event.complete es = s.pending + countEvent Event.register es := by
  induction es with
  | nil =>
    intro s s' h
    simp [execTrace] at h
    subst h
    simp [countEvent]
  | cons e es ih =>
    intro s s' h
    simp only [execTrace, Option.bind_eq_some] at h
    obtain ⟨t, ht, h2⟩ := h
    have hrec := ih t s' h2
    cases e with
    | register =>
      simp only [stepFn] at ht
      split at ht
      · injection ht with ht
        subst ht
        simp only [countEvent] at hrec ⊢
        simp at hrec ⊢
        omega
      · simp at ht
    | complete =>
      simp only [stepFn] at ht
      split at ht
      · simp at ht
      · injection ht with ht
        subst ht
        simp only [countEvent] at hrec ⊢
        simp at hrec ⊢
        omega
    | beginShutdown =>
      simp only [stepFn] at ht
      split at ht
      · injection ht with ht
        subst ht
        simp only [countEvent] at hrec ⊢
        simp at hrec ⊢
        omega
      · simp at ht
    | finishShutdown =>
      simp only [stepFn] at ht
      split at ht
      case isTrue hp =>
        injection ht with ht
        subst ht
        simp only [countEvent] at hrec ⊢
        simp at hrec ⊢
        omega
      case isFalse hp => simp at ht
    | shutdownImmediate =>
      simp only [stepFn] at ht
      split at ht
      · injection ht with ht
        subst ht
        simp only [countEvent] at hrec ⊢
        simp at hrec ⊢
        omega
      · simp at ht
    | shutdownNoop =>
      simp only [stepFn] at ht
      split at ht
      · simp at ht
      · injection ht with ht
        subst ht
        simp only [countEvent] at hrec ⊢
        simp at hrec ⊢
        omega

/-- Once the phase has left Active, no later state of the trace is Active. -/
theorem execTrace_not_active (es : List Event) : ∀ (s s' : EngineState),
    execTrace s es = some s' → s.phase ≠ .active → s'.phase ≠ .active := by
  induction es with
  | nil =>
    intro s s' h hs
    simp [execTrace] at h
    subst h
    exact hs
  | cons e es ih =>
    intro s s' h hs
    simp only [execTrace, Option.bind_eq_some] at h
    obtain ⟨t, ht, h2⟩ := h
    cases e with
    | register =>
      simp only [stepFn] at ht
      split at ht
      case isTrue hp => exact absurd hp hs
      case isFalse hp => simp at ht
    | complete =>
      simp only [stepFn] at ht
      split at ht
      · simp at ht
      · injection ht with ht
        subst ht
        exact ih _ _ h2 hs
    | beginShutdown =>
      simp only [stepFn] at ht
      split at ht
      case isTrue hp => exact absurd hp hs
      case isFalse hp => simp at ht
    | finishShutdown =>
      simp only [stepFn] at ht
      split at ht
      · injection ht with ht
        subst ht
        exact ih _ _ h2 (by simp)
      · simp at ht
    | shutdownImmediate =>
      simp only [stepFn] at ht
      split at ht
      case isTrue hp => exact absurd hp hs
      case isFalse hp => simp at ht
    | shutdownNoop =>
      simp only [stepFn] at ht
      split at ht
      · simp at ht
      · injection ht with ht
        subst ht
        exact ih _ _ h2 hs

/-- Once the phase has left Active, no registration succeeds in the rest of
the trace. -/
theorem execTrace_no_late_register (es : List Event) : ∀ (s s' : EngineState),
    execTrace s es = some s' → s.phase ≠ .active → countEvent Event.register es = 0 := by
  induction es with
  | nil =>
    intro s s' _ _
    simp [countEvent]
  | cons e es ih =>
    intro s s' h hs
    simp only [execTrace, Option.bind_eq_some] at h
    obtain ⟨t, ht, h2⟩ := h
    cases e with
    | register =>
      simp only [stepFn] at ht
      split at ht
      case isTrue hp => exact absurd hp hs
      case isFalse hp => simp at ht
    | complete =>
      simp only [stepFn] at ht
      split at ht
      · simp at ht
      · injection ht with ht
        subst ht
        simp [countEvent, ih _ _ h2 hs]
    | beginShutdown =>
      simp only [stepFn] at ht
      split at ht
      case isTrue hp => exact absurd hp hs
      case isFalse hp => simp at ht
    | finishShutdown =>
      simp only [stepFn] at ht
      split at ht
      · injection ht with ht
        subst ht
        simp [countEvent, ih _ _ h2 (by simp : Phase.closed ≠ Phase.active)]
      · simp at ht
    | shutdownImmediate =>
      simp only [stepFn] at ht
      split at ht
      case isTrue hp => exact absurd hp hs
      case isFalse hp => simp at ht
    | shutdownNoop =>
      simp only [stepFn] at ht
      split at ht
      · simp at ht
      · injection ht with ht
        subst ht
        simp [countEvent, ih _ _ h2 hs]

/-- C3: wait-policy shutdown returns only after the registry has drained:
whenever the finishing step of `shutdown()` fires at the end of a trace from
the initial state, every cleanup registered in the trace has been observed
complete, the final state is Closed with an empty registry and a stopped
scheduler, and any registration attempted after the shutdown transition
began was rejected, so none occurs in the trace suffix. -/
theorem shutdown_waits_for_drain (es : List Event) (s' : EngineState)
    (h : execTrace initState (es ++ [Event.finishShutdown]) = some s') :
    countEvent Event.register es = countEvent Event.complete es ∧
    s'.phase = .closed ∧ s'.pending = 0 ∧ s'.schedulerRunning = false ∧
    ∀ pre post, es = pre ++ Event.beginShutdown :: post → countEvent Event.register post = 0 := by
  rw [execTrace_append] at h
  simp only [Option.bind_eq_some] at h
  obtain ⟨m, hm, hf⟩ := h
  simp only [execTrace, Option.bind_eq_some] at hf
  obtain ⟨u, hu, hu2⟩ := hf
  injection hu2 with hu2
  subst hu2
  simp only [stepFn] at hu
  split at hu
  case isFalse hp => simp at hu
  case isTrue hp =>
    injection hu with hu
    subst hu
    have hinv := execTrace_pending es initState m hm
    refine ⟨?_, rfl, rfl, rfl, ?_⟩
    · simp [initState] at hinv
      omega
    · intro pre post heq
      subst heq
      rw [execTrace_append] at hm
      simp only [Option.bind_eq_some] at hm
      obtain ⟨t1, ht1, ht2⟩ := hm
      simp only [execTrace, Option.bind_eq_some] at ht2
      obtain ⟨t2, ht2a, ht2b⟩ := ht2
      simp only [stepFn] at ht2a
      split at ht2a
      case isFalse => simp at ht2a
      case isTrue hact =>
        injection ht2a with ht2a
        subst ht2a
        exact execTrace_no_late_register post _ _ ht2b (by simp)

/-- Witness for C3 on a concrete trace: a handle registered before the
shutdown transition completes before the wait finishes. -/
theorem shutdown_waits_for_drain_witness :
    countEvent Event.register [Event.register, Event.beginShutdown, Event.complete] =
      countEvent Event.complete [Event.register, Event.beginShutdown, Event.complete] :=
  (shutdown_waits_for_drain [Event.register, Event.beginShutdown, Event.complete]
    closedState (by decide)).1

/-- Mapping the identity over a result leaves it unchanged. -/
theorem MResult.map_id {α : Type} (r : MResult α) : r.map id = r := by
  cases r <;> rfl

/-- C1: every forwarding facade operation equals the spec-side schema: the
engine operation applied to the same arguments, driven through one
blocking-executor call, an engine error returned unchanged and a success
value wrapped only in its facade counterpart type, with no other
transformation, retry or recovery. -/
theorem facade_forwarding_exact (c : Client) (st : EngineState) (f : Option Document) (o : Option ListDatabasesOptions) (so : Option SessionOptions) (p : List Document) (co : Option ChangeStreamOptions) (sess : ClientSession) :
    c.list_databases st f o = specForward st (c.async_client.listDatabasesImpl f o) id ∧
    c.list_database_names st f o = specForward st (c.async_client.listDatabaseNamesImpl f o) id ∧
    c.start_session st so = specForward st (c.async_client.startSessionImpl so) ClientSession.mk ∧
    c.watch st p co = specForward st (c.async_client.watchImpl p co) ChangeStream.new ∧
    c.watch_with_session st p co sess =
      specForwardSession st (c.async_client.watchWithSessionImpl p co sess.async_client_session) sess SessionChangeStream.new := by
  refine ⟨?_, ?_, rfl, rfl, ?_⟩
  · simp [Client.list_databases, specForward, MResult.map_id]
  · simp [Client.list_database_names, specForward, MResult.map_id]
  · cases h : st.schedulerRunning <;>
      simp [Client.watch_with_session, specForwardSession, runtimeBlockOnMut, h, MResult.map]

/-- C4: a clone of the facade client is a handle to the same engine — the
engine reference is shared — and the configuration observers
(selection criteria, read concern, write concern, default database) and
every facade operation agree between the clone and the original. -/
theorem clone_shares_engine (c : Client) (st : EngineState) (sess : ClientSession) (op : FacadeOp) :
    (c.clone).async_client = c.async_client ∧
    (c.clone).async_client.engineId = c.async_client.engineId ∧
    (c.clone).selection_criteria = c.selection_criteria ∧
    (c.clone).read_concern = c.read_concern ∧
    (c.clone).write_concern = c.write_concern ∧
    (c.clone).default_database = c.default_database ∧
    runFacade st (c.clone) sess op = runFacade st c sess op :=
  ⟨rfl, rfl, rfl, rfl, rfl, rfl, rfl⟩

/-- C7: the blocking executor delivers exactly one outcome to the calling
thread — a success or a failure, never both and never neither; when the
scheduler has been stopped post-shutdown the call fails immediately with the
closed-client error; and a facade forwarding method is exactly one executor
invocation around the engine operation. -/
theorem block_on_unblocks_exactly_once {α : Type} (st : EngineState) (r : MResult α) (c : Client) (f : Option Document) (o : Option ListDatabasesOptions) :
    ((∃ v, (runtimeBlockOn st r).val = .ok v) ∨ (∃ e, (runtimeBlockOn st r).val = .err e)) ∧
    (¬ ((∃ v, (runtimeBlockOn st r).val = .ok v) ∧ (∃ e, (runtimeBlockOn st r).val = .err e))) ∧
    (st.schedulerRunning = false → (runtimeBlockOn st r).val = .err .clientClosed) ∧
    (runtimeBlockOn st r).blockOnCalls = 1 ∧
    c.list_databases st f o = runtimeBlockOn st (c.async_client.listDatabasesImpl f o) := by
  refine ⟨?_, ?_, ?_, rfl, rfl⟩
  · cases hv : (runtimeBlockOn st r).val with
    | ok v => exact Or.inl ⟨v, rfl⟩
    | err e => exact Or.inr ⟨e, rfl⟩
  · rintro ⟨⟨v, hv⟩, ⟨e, he⟩⟩
    rw [hv] at he
    exact MResult.noConfusion he
  · intro h
    simp [runtimeBlockOn, h]

/-- Witness for C7 at a concrete stopped-scheduler state and operation. -/
theorem block_on_unblocks_exactly_once_witness :
    (runtimeBlockOn closedState (MResult.ok 0)).val = .err .clientClosed :=
  (block_on_unblocks_exactly_once closedState (MResult.ok 0) testClient none none).2.2.1 rfl

/-- C8: the handle-creation operations build the facade wrapper directly
from the engine handle constructor with zero blocking-executor invocations
and no possibility of failure; the default database is `none` exactly when
the engine reports none, and otherwise the wrapped engine handle. -/
theorem handle_creation_direct (c : Client) (name : String) (opts : DatabaseOptions) :
    (c.database name).blockOnCalls = 0 ∧
    (c.database name).val = Database.new (c.async_client.databaseImpl name) ∧
    (c.database_with_options name opts).blockOnCalls = 0 ∧
    (c.database_with_options name opts).val = Database.new (c.async_client.databaseWithOptionsImpl name opts) ∧
    (c.default_database).blockOnCalls = 0 ∧
    ((c.default_database).val = none ↔ c.async_client.defaultDatabaseImpl = none) ∧
    (∀ d, c.async_client.defaultDatabaseImpl = some d → (c.default_database).val = some (Database.new d)) := by
  refine ⟨rfl, rfl, rfl, rfl, rfl, ?_, ?_⟩
  · cases h : c.async_client.defaultDatabaseImpl <;> simp [Client.default_database, h]
  · intro d hd
    simp [Client.default_database, hd]

/-- Witness for C8 at the concrete client, whose engine reports a default
database. -/
theorem handle_creation_direct_witness :
    (testClient.default_database).val = some (Database.new { id := 2 }) :=
  (handle_creation_direct testClient dbName { id := 0 }).2.2.2.2.2.2 { id := 2 } rfl

/-- C9: the conversion from an engine client is a pure identity wrap storing
the engine client unchanged as the only facade state, and `with_options`
succeeds exactly when the engine constructor succeeds, wrapping its result
with zero blocking-executor invocations. -/
theorem from_async_identity_wrap (a : AsyncClient) (env : EngineEnv) (opts : ClientOptions) :
    (Client.fromAsync a).async_client = a ∧
    (Client.with_options env opts).blockOnCalls = 0 ∧
    (Client.with_options env opts).val = (env.withOptionsImpl opts).map Client.mk ∧
    ((∃ cl, (Client.with_options env opts).val = .ok cl) ↔ (∃ b, env.withOptionsImpl opts = .ok b)) := by
  refine ⟨rfl, rfl, rfl, ?_⟩
  cases h : env.withOptionsImpl opts <;> simp [Client.with_options, h, MResult.map]

/-- C5: a shutdown call of either variant issued once the phase has left
Active is an enabled idempotent no-op: it leaves the state unchanged (hence
leaves unchanged the result of every subsequent facade operation, in
particular the error it returns), and every step of the shutdown machine
moves the phase monotonically along the single path Active, ShuttingDown,
Closed. -/
theorem shutdown_second_call_noop (s : EngineState) (h : s.phase ≠ .active) (c : Client) (sess : ClientSession) (op : FacadeOp) :
    stepFn s (shutdownCallEvent s) = some s ∧
    stepFn s (shutdownImmediateCallEvent s) = some s ∧
    (∀ t u e, stepFn t e = some u → phaseRank t.phase ≤ phaseRank u.phase) ∧
    (∀ t, stepFn s (shutdownCallEvent s) = some t → runFacade t c sess op = runFacade s c sess op) := by
  refine ⟨?_, ?_, ?_, ?_⟩
  · simp [shutdownCallEvent, stepFn, h]
  · simp [shutdownImmediateCallEvent, stepFn, h]
  · intro t u e hstep
    cases e with
    | register =>
      simp only [stepFn] at hstep
      split at hstep
      · injection hstep with hstep
        subst hstep
        exact Nat.le_refl _
      · exact Option.noConfusion hstep
    | complete =>
      simp only [stepFn] at hstep
      split at hstep
      · exact Option.noConfusion hstep
      · injection hstep with hstep
        subst hstep
        exact Nat.le_refl _
    | beginShutdown =>
      simp only [stepFn] at hstep
      split at hstep
      case isTrue hp =>
        injection hstep with hstep
        subst hstep
        rw [hp]
        show phaseRank Phase.active ≤ phaseRank Phase.shuttingDown
        decide
      case isFalse => exact Option.noConfusion hstep
    | finishShutdown =>
      simp only [stepFn] at hstep
      split at hstep
      case isTrue hp =>
        injection hstep with hstep
        subst hstep
        rw [hp.1]
        show phaseRank Phase.shuttingDown ≤ phaseRank Phase.closed
        decide
      case isFalse => exact Option.noConfusion hstep
    | shutdownImmediate =>
      simp only [stepFn] at hstep
      split at hstep
      case isTrue hp =>
        injection hstep with hstep
        subst hstep
        rw [hp]
        show phaseRank Phase.active ≤ phaseRank Phase.closed
        decide
      case isFalse => exact Option.noConfusion hstep
    | shutdownNoop =>
      simp only [stepFn] at hstep
      split at hstep
      · exact Option.noConfusion hstep
      · injection hstep with hstep
        subst hstep
        exact Nat.le_refl _
  · intro t hstep
    rw [shutdownCallEvent] at hstep
    rw [if_neg h] at hstep
    rw [stepFn] at hstep
    rw [if_neg h] at hstep
    injection hstep with hstep
    subst hstep
    rfl

/-- Witness for C5 at the closed state. -/
theorem shutdown_second_call_noop_witness :
    stepFn closedState (shutdownCallEvent closedState) = some closedState :=
  (shutdown_second_call_noop closedState (by decide) testClient testSession FacadeOp.defaultDatabase).1

/-- C6: immediate shutdown never waits on the registry: in every state the
call is a single enabled step; from an Active state — for any number of
pending cleanup records — it sets the phase to Closed and stops the
scheduler, leaving the pending records abandoned rather than drained, and
from any later phase it is the idempotent no-op. -/
theorem shutdown_immediate_no_drain (s : EngineState) :
    stepFn s (shutdownImmediateCallEvent s) =
      some (if s.phase = .active then
        { phase := .closed, pending := s.pending, schedulerRunning := false }
      else s) := by
  by_cases h : s.phase = .active <;>
    simp [shutdownImmediateCallEvent, stepFn, h]

/-- C2 as stated fails on the code: after a completed shutdown (a trace
from the initial state ending in the finishing step, reaching the closed
state), the handle-creation operation `database` does not fail with the
closed-client error: it returns a database handle without error. -/
theorem database_after_shutdown_not_closed_error :
    execTrace initState [Event.beginShutdown, Event.finishShutdown] = some closedState ∧
    (runFacade closedState testClient testSession (FacadeOp.database dbName)).1 ≠
      FacadeResult.err MError.clientClosed ∧
    (runFacade closedState testClient testSession (FacadeOp.database dbName)).1 =
      FacadeResult.databaseHandle (Database.new { id := 0 }) := by
  refine ⟨by decide, by decide, rfl⟩

/-- C2 amended: after shutdown has returned (the scheduler is stopped),
every facade operation that drives the blocking executor fails with the
closed-client error; the handle-creation operations (database,
database_with_options, default_database) never return an error at all —
they construct a handle without touching the executor, and failures surface
only when the handle is used. -/
theorem closed_client_rejects_operations (st : EngineState) (c : Client) (sess : ClientSession) (op : FacadeOp)
    (h : st.schedulerRunning = false) :
    (op.isBlocking = true → (runFacade st c sess op).1 = FacadeResult.err MError.clientClosed) ∧
    (op.isBlocking = false → ∀ e, (runFacade st c sess op).1 ≠ FacadeResult.err e) := by
  cases op <;>
    simp [runFacade, FacadeOp.isBlocking, FacadeResult.ofResult,
      Client.list_databases, Client.list_database_names, Client.start_session,
      Client.watch, Client.watch_with_session, Client.database,
      Client.database_with_options, Client.default_database,
      runtimeBlockOn, runtimeBlockOnMut, h, MResult.map]

/-- Witness for C2 amended at the closed state: a blocking operation fails
with the closed-client error. -/
theorem closed_client_rejects_operations_witness :
    (runFacade closedState testClient testSession (FacadeOp.startSession none)).1 =
      FacadeResult.err MError.clientClosed :=
  (closed_client_rejects_operations closedState testClient testSession
    (FacadeOp.startSession none) rfl).1 rfl

/-- C10: every facade operation leaves the client state — its wrapped engine
reference — unchanged; every operation other than `watch_with_session` also
leaves the caller-supplied session unchanged; and `watch_with_session`
updates the session only through its wrapped engine session: to the
engine-returned session when the executor ran the operation, and to its
original value when the executor rejected the call. -/
theorem facade_ops_frame (st : EngineState) (c : Client) (sess : ClientSession) (op : FacadeOp) :
    (runFacade st c sess op).2.1 = c ∧
    ((∀ p o, op ≠ FacadeOp.watchWithSession p o) → (runFacade st c sess op).2.2 = sess) ∧
    (∀ p o, op = FacadeOp.watchWithSession p o →
      (runFacade st c sess op).2.2 =
        (if st.schedulerRunning then
          { async_client_session := (c.async_client.watchWithSessionImpl p o sess.async_client_session).2 }
        else sess)) := by
  cases op with
  | watchWithSession p0 o0 =>
    refine ⟨rfl, ?_, ?_⟩
    · intro hne
      exact absurd rfl (hne p0 o0)
    · intro p o heq
      injection heq with hp ho
      subst hp
      subst ho
      cases h : st.schedulerRunning <;>
        simp [runFacade, Client.watch_with_session, runtimeBlockOnMut, h]
  | listDatabases f o => exact ⟨rfl, fun _ => rfl, fun p o heq => by cases heq⟩
  | listDatabaseNames f o => exact ⟨rfl, fun _ => rfl, fun p o heq => by cases heq⟩
  | startSession o => exact ⟨rfl, fun _ => rfl, fun p o heq => by cases heq⟩
  | watch p o => exact ⟨rfl, fun _ => rfl, fun p o heq => by cases heq⟩
  | database n => exact ⟨rfl, fun _ => rfl, fun p o heq => by cases heq⟩
  | databaseWithOptions n o => exact ⟨rfl, fun _ => rfl, fun p o heq => by cases heq⟩
  | defaultDatabase => exact ⟨rfl, fun _ => rfl, fun p o heq => by cases heq⟩

/-- Witness for C10 at a concrete running state: the client is unchanged and
the session update goes through the engine session. -/
theorem facade_ops_frame_witness :
    (runFacade runningState testClient testSession (FacadeOp.watchWithSession [] none)).2.1 = testClient ∧
    (runFacade runningState testClient testSession (FacadeOp.watchWithSession [] none)).2.2 =
      (if runningState.schedulerRunning then
        { async_client_session :=
            (testClient.async_client.watchWithSessionImpl [] none testSession.async_client_session).2 }
      else testSession) :=
  ⟨(facade_ops_frame runningState testClient testSession (FacadeOp.watchWithSession [] none)).1,
   (facade_ops_frame runningState testClient testSession (FacadeOp.watchWithSession [] none)).2.2
     [] none rfl⟩

end MongoSync
